import Mathlib

/-!
Verification of the document classifier in `src/app.py` (Document Handler API).

The embedding models, faithfully to the Python source:
- `base64.b64decode` in its lenient form (default, used at app.py line 42) and in
  its validating form (`validate=True`, used at line 156), following CPython's
  `binascii.a2b_base64`, including the ASCII pre-encoding step, the skipping of
  non-alphabet characters, and the padding arithmetic;
- bytes `decode('utf-8', errors='ignore')` (line 81), following CPython's UTF-8
  decoder with the `ignore` error handler (maximal-subpart skipping, surrogate
  and overlong rejection);
- Python `dict` construction for the signature table (lines 58-70), where a
  duplicate key keeps its first insertion position but takes the latest value;
- `detect_file_type` (lines 35-107), `save`/classification flow of
  `process_document` (lines 139-235) and the inline acceptance-table lookup
  (lines 176-201).

Python strings are modelled as Lean `String` / `List Char`, byte strings as
`List Nat` (each element a byte value), and the float confidence literals as
exact decimal rationals (no floating-point arithmetic is performed on them in
the source; they are table constants passed through unchanged).
Print statements are modelled as events appended to an explicit output state,
so that independence of the results from that state is a provable statement.
-/

/-! ## Python string helpers -/

/-- Python `s.startswith(p)`. -/
def pyStartsWith (s p : String) : Bool := p.data.isPrefixOf s.data

/-- Python `s.startswith(p)` on a character list (used for the decoded text). -/
def pyStartsWithL (l : List Char) (p : String) : Bool := p.data.isPrefixOf l

/-- Python `s.split(sep, 1)` for a one-character separator, returning the two
pieces when the separator occurs, and `none` otherwise (in which case the
source's tuple unpacking `header, data = ...` raises `ValueError`). -/
def splitFirstChar (c : Char) : List Char → Option (List Char × List Char)
  | [] => none
  | x :: xs =>
    if x = c then some ([], xs)
    else
      match splitFirstChar c xs with
      | some (a, b) => some (x :: a, b)
      | none => none

/-- Python `s.split(sep)` for a one-character separator: splits at every
occurrence; the result is always non-empty (`"".split(c) == [""]`). -/
def splitAllChar (c : Char) : List Char → List (List Char)
  | [] => [[]]
  | x :: xs =>
    let r := splitAllChar c xs
    if x = c then [] :: r
    else
      match r with
      | h :: t => (x :: h) :: t
      | [] => [[x]]

/-! ## base64 decoding (CPython `binascii.a2b_base64`) -/

/-- Value of a character in the standard base64 alphabet, `none` otherwise. -/
def b64CharVal (c : Char) : Option Nat :=
  if 'A' ≤ c ∧ c ≤ 'Z' then some (c.toNat - 65)
  else if 'a' ≤ c ∧ c ≤ 'z' then some (c.toNat - 97 + 26)
  else if '0' ≤ c ∧ c ≤ '9' then some (c.toNat - 48 + 52)
  else if c = '+' then some 62
  else if c = '/' then some 63
  else none

/-- CPython `binascii.a2b_base64` in non-strict mode: characters outside the
alphabet are skipped, `=` terminates a quad of 2 or 3 data characters once
enough pads have accumulated, and a leftover quad at the end (1, 2 or 3 data
characters without sufficient padding) raises, modelled as `none`.
Arguments: remaining characters, quad position, pending bits, pad count,
reversed output accumulator. -/
def a2bLenient : List Char → Nat → Nat → Nat → List Nat → Option (List Nat)
  | [], quadPos, _, _, acc => if quadPos = 0 then some acc.reverse else none
  | c :: rest, quadPos, leftchar, pads, acc =>
    if c = '=' then
      if 2 ≤ quadPos then
        if 4 ≤ quadPos + (pads + 1) then some acc.reverse
        else a2bLenient rest quadPos leftchar (pads + 1) acc
      else a2bLenient rest quadPos leftchar pads acc
    else
      match b64CharVal c with
      | none => a2bLenient rest quadPos leftchar pads acc
      | some v =>
        match quadPos with
        | 0 => a2bLenient rest 1 v 0 acc
        | 1 => a2bLenient rest 2 (v % 16) 0 ((leftchar * 4 + v / 16) :: acc)
        | 2 => a2bLenient rest 3 (v % 4) 0 ((leftchar * 16 + v / 4) :: acc)
        | _ => a2bLenient rest 0 0 0 ((leftchar * 64 + v) :: acc)

/-- Python `base64.b64decode(s)` with default `validate=False` (app.py line 42):
the string is first encoded as ASCII (failure for any character ≥ `\x80`),
then fed to the lenient `a2b_base64`; any raised exception is `none`. -/
def pyB64DecodeLenient (s : String) : Option (List Nat) :=
  if s.data.all (fun c => c.toNat < 128) then a2bLenient s.data 0 0 0 []
  else none

/-- The regular expression `[A-Za-z0-9+/]*={0,2}` used by
`base64.b64decode(..., validate=True)`. -/
def validB64Format : List Char → Bool
  | [] => true
  | c :: rest =>
    if (b64CharVal c).isSome then validB64Format rest
    else c = '=' && (rest = [] || rest = ['='])

/-- Python `base64.b64decode(s, validate=True)` (app.py line 156): ASCII
encoding, the alphabet regular expression, then the same `a2b_base64`. -/
def pyB64DecodeStrict (s : String) : Option (List Nat) :=
  if s.data.all (fun c => c.toNat < 128) && validB64Format s.data then
    a2bLenient s.data 0 0 0 []
  else none

/-! ## UTF-8 decoding with `errors='ignore'` (app.py line 81) -/

/-- A UTF-8 continuation byte, `0x80..0xBF`. -/
def isCont (b : Nat) : Bool := 0x80 ≤ b && b < 0xC0

/-- Allowed second byte of a three-byte sequence led by `b` (CPython rejects
overlong encodings after `0xE0` and surrogates after `0xED`). -/
def cont3Snd (b b2 : Nat) : Bool :=
  if b = 0xE0 then 0xA0 ≤ b2 && b2 < 0xC0
  else if b = 0xED then 0x80 ≤ b2 && b2 < 0xA0
  else isCont b2

/-- Allowed second byte of a four-byte sequence led by `b` (CPython rejects
overlong encodings after `0xF0` and values above `U+10FFFF` after `0xF4`). -/
def cont4Snd (b b2 : Nat) : Bool :=
  if b = 0xF0 then 0x90 ≤ b2 && b2 < 0xC0
  else if b = 0xF4 then 0x80 ≤ b2 && b2 < 0x90
  else isCont b2

/-- One step of the CPython UTF-8 decoder on leading byte `b` with remaining
input `rest`: the decoded character, if the leading sequence is well formed,
and the input left after the consumed bytes.  An ill-formed sequence consumes
exactly its maximal valid prefix (at least the leading byte), as the CPython
`ignore` error handler does; a sequence truncated by the end of input consumes
the whole remainder. -/
def utf8Step (b : Nat) (rest : List Nat) : Option Char × List Nat :=
  if b < 0x80 then (some (Char.ofNat b), rest)
  else if b < 0xC2 then (none, rest)
  else if b < 0xE0 then
    match rest with
    | [] => (none, [])
    | b2 :: rest2 =>
      if isCont b2 then
        (some (Char.ofNat ((b - 0xC0) * 0x40 + (b2 - 0x80))), rest2)
      else (none, b2 :: rest2)
  else if b < 0xF0 then
    match rest with
    | [] => (none, [])
    | b2 :: rest2 =>
      if cont3Snd b b2 then
        match rest2 with
        | [] => (none, [])
        | b3 :: rest3 =>
          if isCont b3 then
            (some (Char.ofNat ((b - 0xE0) * 0x1000 + (b2 - 0x80) * 0x40 + (b3 - 0x80))),
             rest3)
          else (none, b3 :: rest3)
      else (none, b2 :: rest2)
  else if b < 0xF5 then
    match rest with
    | [] => (none, [])
    | b2 :: rest2 =>
      if cont4Snd b b2 then
        match rest2 with
        | [] => (none, [])
        | b3 :: rest3 =>
          if isCont b3 then
            match rest3 with
            | [] => (none, [])
            | b4 :: rest4 =>
              if isCont b4 then
                (some (Char.ofNat ((b - 0xF0) * 0x40000 + (b2 - 0x80) * 0x1000 +
                    (b3 - 0x80) * 0x40 + (b4 - 0x80))), rest4)
              else (none, b4 :: rest4)
          else (none, b3 :: rest3)
      else (none, b2 :: rest2)
  else (none, rest)

/-- Iterate `utf8Step`; the fuel is an upper bound on the number of steps
(each step consumes at least one byte, so an initial fuel of the input length
never runs out). -/
def utf8IgnoreAux : Nat → List Nat → List Char
  | _, [] => []
  | 0, _ :: _ => []
  | fuel + 1, b :: rest =>
    match utf8Step b rest with
    | (some c, rest2) => c :: utf8IgnoreAux fuel rest2
    | (none, rest2) => utf8IgnoreAux fuel rest2

/-- CPython `bytes.decode('utf-8', errors='ignore')`: strict UTF-8 (surrogates
and overlong encodings rejected) with ill-formed sequences dropped. -/
def utf8Ignore (l : List Nat) : List Char := utf8IgnoreAux l.length l

/-! ## The signature table (app.py lines 58-70) -/

/-- One Python `dict` insertion: a duplicate key keeps its original position
but receives the new value. -/
def dictInsert (k : List Nat) (v : String × String) :
    List (List Nat × (String × String)) → List (List Nat × (String × String))
  | [] => [(k, v)]
  | (k1, v1) :: rest =>
    if k1 = k then (k1, v) :: rest else (k1, v1) :: dictInsert k v rest

/-- The key/value pairs of the `file_signatures` dict literal, in source order.
`b'PK\x03\x04'` and `b'\x50\x4b\x03\x04'` are the same byte string (likewise
for the `\x05\x06` and `\x07\x08` variants), so the later docx entries
overwrite the zip entries. -/
def fileSignaturePairs : List (List Nat × (String × String)) :=
  [([0x89, 0x50, 0x4E, 0x47, 0x0D, 0x0A, 0x1A, 0x0A], ("image/png", "png")),
   ([0xFF, 0xD8, 0xFF], ("image/jpeg", "jpg")),
   ([0x47, 0x49, 0x46, 0x38, 0x37, 0x61], ("image/gif", "gif")),
   ([0x47, 0x49, 0x46, 0x38, 0x39, 0x61], ("image/gif", "gif")),
   ([0x25, 0x50, 0x44, 0x46], ("application/pdf", "pdf")),
   ([0x50, 0x4B, 0x03, 0x04], ("application/zip", "zip")),
   ([0x50, 0x4B, 0x05, 0x06], ("application/zip", "zip")),
   ([0x50, 0x4B, 0x07, 0x08], ("application/zip", "zip")),
   ([0x50, 0x4B, 0x03, 0x04],
     ("application/vnd.openxmlformats-officedocument.wordprocessingml.document", "docx")),
   ([0x50, 0x4B, 0x05, 0x06],
     ("application/vnd.openxmlformats-officedocument.wordprocessingml.document", "docx")),
   ([0x50, 0x4B, 0x07, 0x08],
     ("application/vnd.openxmlformats-officedocument.wordprocessingml.document", "docx"))]

/-- The `file_signatures` dict built from the literal by Python dict semantics. -/
def file_signatures : List (List Nat × (String × String)) :=
  fileSignaturePairs.foldl (fun d kv => dictInsert kv.1 kv.2 d) []

/-- The `for signature, (mime_type, ext) in file_signatures.items()` loop
(lines 72-75): first signature that is a prefix of the decoded data wins. -/
def sigLookup : List (List Nat × (String × String)) → List Nat → Option (String × String)
  | [], _ => none
  | (sig, me) :: rest, d => if sig.isPrefixOf d then some me else sigLookup rest d

/-! ## The data-URL branch (app.py lines 47-55) -/

/-- Lines 49-51: `header, data = base64_data.split(',', 1)`;
`mime_type = header.split(':')[1].split(';')[0]`;
`file_extension = mime_type.split('/')[-1] if '/' in mime_type else 'bin'`.
`none` models the exceptions swallowed by the bare `except: pass`
(`ValueError` from unpacking when there is no comma, `IndexError` when the
header has no `:`). -/
def parseDataUrl (s : String) : Option (String × String) :=
  match splitFirstChar ',' s.data with
  | none => none
  | some (header, _) =>
    match splitAllChar ':' header with
    | _ :: p1 :: _ =>
      let mime := p1.takeWhile (fun ch => ch ≠ ';')
      let ext :=
        if mime.contains '/' then String.mk ((splitAllChar '/' mime).getLastD [])
        else "bin"
      some (String.mk mime, ext)
    | _ => none

/-- Line 81: `decoded_data[:100].decode('utf-8', errors='ignore')`. -/
def textStart (d : List Nat) : List Char := utf8Ignore (d.take 100)

/-! ## `detect_file_type` (app.py lines 35-107)

The function's only side effect is writing to stdout.  The `print` calls are
modelled as events appended to an explicit output state threaded through the
function, so that independence of the returned value from that state is a
statement rather than a convention. -/

/-- The `print` statements of `detect_file_type` and of the classification
block of `process_document`, by call site, carrying their dynamic data. -/
inductive PrintEv where
  | analyzing (size : Nat)
  | fromDataUrl (mime ext : String)
  | fromSignature (mime ext : String)
  | textDetect (mime ext : String)
  | genericFallback
  | detectError
  | docAccepted (reason : String)
  | docRejected (reason : String)

/-- Lines 57-102 of `detect_file_type`: the signature loop, the text-content
heuristic on the first 100 bytes (only when at least 4 bytes decoded), and the
generic-binary fallback. -/
def detectRest (d : List Nat) (out : List PrintEv) :
    (String × String) × List PrintEv :=
  match sigLookup file_signatures d with
  | some (m, e) => ((m, e), out ++ [.fromSignature m e])
  | none =>
    if 4 ≤ d.length then
      let ts := textStart d
      if pyStartsWithL ts "<?xml" then
        (("application/xml", "xml"), out ++ [.textDetect "application/xml" "xml"])
      else if pyStartsWithL ts "\x7b" || pyStartsWithL ts "[" then
        (("application/json", "json"), out ++ [.textDetect "application/json" "json"])
      else if pyStartsWithL ts "<html" || pyStartsWithL ts "<!DOCTYPE" then
        (("text/html", "html"), out ++ [.textDetect "text/html" "html"])
      else if pyStartsWithL ts "<?php" then
        (("application/x-httpd-php", "php"),
         out ++ [.textDetect "application/x-httpd-php" "php"])
      else if pyStartsWithL ts "#!/" then
        (("text/plain", "txt"), out ++ [.textDetect "text/plain" "txt"])
      else (("application/octet-stream", "bin"), out ++ [.genericFallback])
    else (("application/octet-stream", "bin"), out ++ [.genericFallback])

/-- `detect_file_type(base64_data)`, lines 35-107: decode the full input
string leniently (an exception here, caught at line 104, is the
generic-binary fallback), then the data-URL branch (only when the raw input
starts with `data:`; a parse failure falls through via `except: pass`), then
`detectRest`. -/
def detectFileTypeRun (base64_data : String) (out : List PrintEv) :
    (String × String) × List PrintEv :=
  match pyB64DecodeLenient base64_data with
  | none => (("application/octet-stream", "bin"), out ++ [.detectError])
  | some decoded_data =>
    let out1 := out ++ [.analyzing decoded_data.length]
    if pyStartsWith base64_data "data:" then
      match parseDataUrl base64_data with
      | some (m, e) => ((m, e), out1 ++ [.fromDataUrl m e])
      | none => detectRest decoded_data out1
    else detectRest decoded_data out1

/-- The value returned by `detect_file_type`. -/
def detect_file_type (base64_data : String) : String × String :=
  (detectFileTypeRun base64_data []).1

/-! ## The acceptance table and classification (app.py lines 170-201) -/

/-- The `accepted_types` dict of lines 176-192 (no duplicate keys, so an
ordered association list with the same lookup behaviour). Confidence floats
are the exact decimal constants of the source. -/
def accepted_types : List (String × Rat × String) :=
  [("application/pdf", mkRat 95 100, "PDF document - Accepted"),
   ("image/jpeg", mkRat 85 100, "JPEG image - Accepted"),
   ("image/png", mkRat 85 100, "PNG image - Accepted"),
   ("image/gif", mkRat 80 100, "GIF image - Accepted"),
   ("application/vnd.openxmlformats-officedocument.wordprocessingml.document",
     mkRat 90 100, "DOCX document - Accepted"),
   ("application/msword", mkRat 85 100, "DOC document - Accepted"),
   ("application/vnd.openxmlformats-officedocument.spreadsheetml.sheet",
     mkRat 90 100, "XLSX spreadsheet - Accepted"),
   ("application/vnd.ms-excel", mkRat 85 100, "XLS spreadsheet - Accepted"),
   ("application/vnd.openxmlformats-officedocument.presentationml.presentation",
     mkRat 90 100, "PPTX presentation - Accepted"),
   ("application/vnd.ms-powerpoint", mkRat 85 100, "PPT presentation - Accepted"),
   ("text/plain", mkRat 70 100, "Text file - Accepted"),
   ("application/json", mkRat 75 100, "JSON file - Accepted"),
   ("application/xml", mkRat 75 100, "XML file - Accepted"),
   ("text/html", mkRat 70 100, "HTML file - Accepted"),
   ("text/csv", mkRat 75 100, "CSV file - Accepted")]

/-- Line 200: `f"File type '{mime_type}' not in accepted list - Rejected"`. -/
def rejectReason (mime_type : String) : String :=
  "File type \x27" ++ mime_type ++ "\x27 not in accepted list - Rejected"

/-- Lines 194-201: the acceptance lookup, producing
`(status, confidence_score, reason)` and the corresponding print. -/
def classifyRun (mime_type : String) (out : List PrintEv) :
    (String × Rat × String) × List PrintEv :=
  match List.lookup mime_type accepted_types with
  | some (c, r) => (("accepted", c, r), out ++ [.docAccepted r])
  | none =>
    (("rejected", mkRat 3 10, rejectReason mime_type),
     out ++ [.docRejected (rejectReason mime_type)])

/-- The classification verdict for a detected mime type. -/
def classify (mime_type : String) : String × Rat × String :=
  (classifyRun mime_type []).1

/-! ## `process_document` (app.py lines 139-235) -/

/-- Python `Union[str, int]` identifiers, passed through opaquely. -/
def PyId : Type := String ⊕ Int

/-- The request body (`DocumentRequest`, lines 23-26). -/
structure DocumentRequest where
  record_id : PyId
  document_id : PyId
  base64_data : String

/-- The response body (`DocumentResponse`, lines 28-33). -/
structure DocumentResponse where
  record_id : PyId
  document_id : PyId
  status : String
  confidence_score : Rat
  reason : String

/-- The `HTTPException`s raised by `process_document`. -/
inductive HErr where
  | invalidBase64
  | emptyFile
  | internalError

/-- HTTP status code of each raised exception (lines 159, 163, 235). -/
def statusCode : HErr → Nat
  | .invalidBase64 => 400
  | .emptyFile => 400
  | .internalError => 500

/-- Observable calls made by `process_document` after validation, in order:
the type detection, the classification, and the persistence call
`save_temp_file(decoded_data, record_id, document_id, file_extension)` with
the storage path it returned. -/
inductive CallEv where
  | detectEv (mime ext : String)
  | classifyEv (status : String) (score : Rat) (reason : String)
  | saveEv (data : List Nat) (recordId documentId : PyId) (ext : String) (path : String)

/-- Lines 150-152: strip a data-URL prefix before validation.  When the input
starts with `data:` but has no comma, `split(',', 1)[1]` raises `IndexError`,
which the handler at line 233 turns into a 500. -/
def stripDataUrl (s : String) : Except Unit String :=
  if pyStartsWith s "data:" then
    match splitFirstChar ',' s.data with
    | some (_, rest) => .ok (String.mk rest)
    | none => .error ()
  else .ok s

/-- `process_document` (lines 139-235), parameterised by the persistence
function (`save_temp_file`, whose disk effects are outside the core): strip
the data-URL prefix, validate the base64 strictly (400 on failure), reject
empty payloads (400), then detect, classify, persist, and answer.  The second
component lists the calls performed after validation, in order. -/
def processDocument (save : List Nat → PyId → PyId → String → String)
    (req : DocumentRequest) : Except HErr DocumentResponse × List CallEv :=
  match stripDataUrl req.base64_data with
  | .error _ => (.error .internalError, [])
  | .ok base64_data =>
    match pyB64DecodeStrict base64_data with
    | none => (.error .invalidBase64, [])
    | some decoded_data =>
      if decoded_data.length = 0 then (.error .emptyFile, [])
      else
        let mime_type := (detect_file_type base64_data).1
        let file_extension := (detect_file_type base64_data).2
        let verdict := classify mime_type
        let temp_file_path :=
          save decoded_data req.record_id req.document_id file_extension
        (.ok ⟨req.record_id, req.document_id, verdict.1, verdict.2.1, verdict.2.2⟩,
         [.detectEv mime_type file_extension,
          .classifyEv verdict.1 verdict.2.1 verdict.2.2,
          .saveEv decoded_data req.record_id req.document_id file_extension
            temp_file_path])

/-! ## Helper lemmas -/

/-- `utf8Step` never consumes a negative amount: the remainder it returns is at
most the input. -/
lemma utf8Step_length (b : Nat) (rest : List Nat) :
    (utf8Step b rest).2.length ≤ rest.length := by
  rcases rest with _ | ⟨b2, _ | ⟨b3, _ | ⟨b4, r4⟩⟩⟩ <;>
    simp only [utf8Step] <;> split_ifs <;> (simp; try omega)

/-- The fuel of `utf8IgnoreAux` is irrelevant once it covers the input length. -/
lemma utf8IgnoreAux_irrel :
    ∀ f1 f2 l, l.length ≤ f1 → l.length ≤ f2 → utf8IgnoreAux f1 l = utf8IgnoreAux f2 l := by
  intro f1
  induction f1 with
  | zero =>
    intro f2 l h1 _
    have : l = [] := List.eq_nil_of_length_eq_zero (Nat.le_zero.mp h1)
    subst this
    cases f2 <;> rfl
  | succ f1 ih =>
    intro f2 l h1 h2
    cases l with
    | nil => cases f2 <;> rfl
    | cons b rest =>
      cases f2 with
      | zero => simp at h2
      | succ f2 =>
        simp only [utf8IgnoreAux]
        have hb := utf8Step_length b rest
        have hlen : rest.length ≤ f1 := by simp at h1; omega
        have hlen2 : rest.length ≤ f2 := by simp at h2; omega
        rcases h : utf8Step b rest with ⟨c?, r⟩
        rw [h] at hb
        simp only at hb
        cases c? with
        | none => exact ih _ _ (le_trans hb hlen) (le_trans hb hlen2)
        | some c => exact congrArg _ (ih _ _ (le_trans hb hlen) (le_trans hb hlen2))

/-- Unfolding equation for `utf8Ignore` on a non-empty input. -/
lemma utf8Ignore_cons (b : Nat) (rest : List Nat) :
    utf8Ignore (b :: rest) =
      (match utf8Step b rest with
       | (some c, r) => c :: utf8Ignore r
       | (none, r) => utf8Ignore r) := by
  have hb := utf8Step_length b rest
  rcases h : utf8Step b rest with ⟨c?, r⟩
  rw [h] at hb
  simp only at hb
  have h0 : utf8Ignore (b :: rest) = utf8IgnoreAux (rest.length + 1) (b :: rest) := by
    simp [utf8Ignore]
  rw [h0]
  simp only [utf8IgnoreAux, h]
  cases c? with
  | none => exact utf8IgnoreAux_irrel _ _ _ hb le_rfl
  | some c => exact congrArg _ (utf8IgnoreAux_irrel _ _ _ hb le_rfl)

/-- An ASCII byte is never a continuation byte. -/
lemma isCont_ascii {a : Nat} (ha : a < 0x80) : isCont a = false := by
  simp [isCont]; omega

/-- An ASCII byte never satisfies the three-byte second-byte constraint. -/
lemma cont3Snd_ascii {b a : Nat} (ha : a < 0x80) : cont3Snd b a = false := by
  unfold cont3Snd
  split_ifs <;> simp [isCont] <;> omega

/-- An ASCII byte never satisfies the four-byte second-byte constraint. -/
lemma cont4Snd_ascii {b a : Nat} (ha : a < 0x80) : cont4Snd b a = false := by
  unfold cont4Snd
  split_ifs <;> simp [isCont] <;> omega

set_option maxHeartbeats 1000000 in
/-- A decoder step never reads past a following ASCII byte: stepping on
`mid ++ a :: tail` with `a` ASCII gives the same character and consumes the
same bytes as stepping on `mid` alone. -/
lemma utf8Step_append_ascii {a : Nat} (ha : a < 0x80) (b : Nat) (mid tail : List Nat) :
    utf8Step b (mid ++ a :: tail) = ((utf8Step b mid).1, (utf8Step b mid).2 ++ a :: tail) := by
  have hca : isCont a = false := isCont_ascii ha
  have hc3 : ∀ c, cont3Snd c a = false := fun c => cont3Snd_ascii ha
  have hc4 : ∀ c, cont4Snd c a = false := fun c => cont4Snd_ascii ha
  rcases mid with _ | ⟨b2, _ | ⟨b3, _ | ⟨b4, m⟩⟩⟩ <;>
    simp only [utf8Step, List.cons_append, List.nil_append, hca, hc3, hc4,
      Bool.false_eq_true, if_false] <;>
    split_ifs <;> rfl

/-- Decoding splits at an ASCII byte: ill-formed leading bytes are dropped
without ever swallowing a following ASCII byte. -/
lemma utf8Ignore_append_ascii {a : Nat} (ha : a < 0x80) :
    ∀ (n : Nat) (bad tail : List Nat), bad.length ≤ n →
      utf8Ignore (bad ++ a :: tail) = utf8Ignore bad ++ utf8Ignore (a :: tail) := by
  intro n
  induction n with
  | zero =>
    intro bad tail h
    have : bad = [] := List.eq_nil_of_length_eq_zero (Nat.le_zero.mp h)
    subst this
    simp [utf8Ignore, utf8IgnoreAux]
  | succ n ih =>
    intro bad tail h
    cases bad with
    | nil => simp [utf8Ignore, utf8IgnoreAux]
    | cons b mid =>
      rw [List.cons_append, utf8Ignore_cons, utf8Step_append_ascii ha,
        utf8Ignore_cons b mid]
      have hb := utf8Step_length b mid
      have hmid : mid.length ≤ n := by simp at h; omega
      rcases hstep : utf8Step b mid with ⟨c?, r⟩
      rw [hstep] at hb
      simp only at hb
      cases c? with
      | none => dsimp only; exact ih r tail (le_trans hb hmid)
      | some c =>
        dsimp only
        rw [List.cons_append, ih r tail (le_trans hb hmid)]

/-- A result of the signature loop is one of the table's values. -/
lemma sigLookup_mem :
    ∀ (t : List (List Nat × (String × String))) (d : List Nat) (me : String × String),
      sigLookup t d = some me → me ∈ t.map Prod.snd := by
  intro t
  induction t with
  | nil => intro d me h; simp [sigLookup] at h
  | cons p rest ih =>
    intro d me h
    rcases p with ⟨sig, v⟩
    simp only [sigLookup] at h
    by_cases hp : sig.isPrefixOf d
    · rw [if_pos hp] at h
      simp at h
      simp [h]
    · rw [if_neg hp] at h
      simpa using Or.inr (ih d me h)

/-- The signature loop finds nothing when no table key is a prefix. -/
lemma sigLookup_none :
    ∀ (t : List (List Nat × (String × String))) (d : List Nat),
      (∀ p ∈ t, p.1.isPrefixOf d = false) → sigLookup t d = none := by
  intro t
  induction t with
  | nil => intro d _; rfl
  | cons p rest ih =>
    intro d h
    rcases p with ⟨sig, v⟩
    have h1 := h (sig, v) (List.mem_cons_self _ _)
    simp only [sigLookup, h1, Bool.false_eq_true, if_false]
    exact ih d fun q hq => h q (List.mem_cons_of_mem _ hq)

/-- The value component of `detectRest` does not depend on the output state. -/
lemma detectRest_fst (d : List Nat) (out out2 : List PrintEv) :
    (detectRest d out).1 = (detectRest d out2).1 := by
  unfold detectRest
  cases h : sigLookup file_signatures d with
  | some me => rcases me with ⟨m, e⟩; rfl
  | none => dsimp only; split_ifs <;> rfl

/-- The value component of `detectFileTypeRun` does not depend on the output
state. -/
lemma detectFileTypeRun_fst (s : String) (out out2 : List PrintEv) :
    (detectFileTypeRun s out).1 = (detectFileTypeRun s out2).1 := by
  unfold detectFileTypeRun
  cases h : pyB64DecodeLenient s with
  | none => rfl
  | some d =>
    by_cases hp : pyStartsWith s "data:"
    · simp only [hp, if_true]
      cases hq : parseDataUrl s with
      | some me => rcases me with ⟨m, e⟩; rfl
      | none => exact detectRest_fst d _ _
    · simp only [hp, Bool.false_eq_true, if_false]
      exact detectRest_fst d _ _

/-- The value component of `classifyRun` does not depend on the output state. -/
lemma classifyRun_fst (m : String) (out out2 : List PrintEv) :
    (classifyRun m out).1 = (classifyRun m out2).1 := by
  unfold classifyRun
  cases h : List.lookup m accepted_types with
  | some cr => rcases cr with ⟨c, r⟩; rfl
  | none => rfl

/-- Reduction of `detect_file_type` to the signature/text part when the
decode succeeds and the raw input has no `data:` prefix. -/
lemma detect_eq_detectRest (s : String) (d : List Nat)
    (hdec : pyB64DecodeLenient s = some d)
    (hpre : pyStartsWith s "data:" = false) :
    detect_file_type s = (detectRest d []).1 := by
  unfold detect_file_type detectFileTypeRun
  rw [hdec]
  simp only [hpre, Bool.false_eq_true, if_false]
  exact detectRest_fst d _ _

/-- The explicit value of the `file_signatures` dict after Python insertion
semantics: eight entries, the three ZIP keys carrying the docx value. -/
lemma file_signatures_eval :
    file_signatures =
      [([0x89, 0x50, 0x4E, 0x47, 0x0D, 0x0A, 0x1A, 0x0A], ("image/png", "png")),
       ([0xFF, 0xD8, 0xFF], ("image/jpeg", "jpg")),
       ([0x47, 0x49, 0x46, 0x38, 0x37, 0x61], ("image/gif", "gif")),
       ([0x47, 0x49, 0x46, 0x38, 0x39, 0x61], ("image/gif", "gif")),
       ([0x25, 0x50, 0x44, 0x46], ("application/pdf", "pdf")),
       ([0x50, 0x4B, 0x03, 0x04],
         ("application/vnd.openxmlformats-officedocument.wordprocessingml.document", "docx")),
       ([0x50, 0x4B, 0x05, 0x06],
         ("application/vnd.openxmlformats-officedocument.wordprocessingml.document", "docx")),
       ([0x50, 0x4B, 0x07, 0x08],
         ("application/vnd.openxmlformats-officedocument.wordprocessingml.document", "docx"))] := by
  decide

/-! ## Claim theorems -/

/-- C1: for every mime string `m`, `classify` returns status `accepted` if and
only if `m` is a key of the fixed `accepted_types` table; when accepted, the
confidence score and reason are exactly the table entry for `m`; when absent,
the result is the fixed rejection triple with reason
`File type '<m>' not in accepted list - Rejected`; in particular for
`application/pdf` and `application/x-httpd-php`. -/
theorem classify_acceptance_table (m : String) :
    ((classify m).1 = "accepted" ↔ (List.lookup m accepted_types).isSome = true) ∧
    (∀ c r, List.lookup m accepted_types = some (c, r) → classify m = ("accepted", c, r)) ∧
    (List.lookup m accepted_types = none →
      classify m = ("rejected", mkRat 3 10,
        "File type \x27" ++ m ++ "\x27 not in accepted list - Rejected")) ∧
    classify "application/pdf" = ("accepted", mkRat 95 100, "PDF document - Accepted") ∧
    classify "application/x-httpd-php" =
      ("rejected", mkRat 3 10,
       "File type \x27application/x-httpd-php\x27 not in accepted list - Rejected") := by
  refine ⟨?_, ?_, ?_, by decide, by decide⟩
  · cases h : List.lookup m accepted_types with
    | some cr =>
      rcases cr with ⟨c, r⟩
      simp [classify, classifyRun, h]
    | none =>
      simp only [classify, classifyRun, h, Option.isSome_none]
      constructor
      · intro hc
        exact absurd hc (by decide)
      · intro hc
        exact absurd hc (by decide)
  · intro c r h
    simp [classify, classifyRun, h]
  · intro h
    simp [classify, classifyRun, h, rejectReason]

/-- Witness for C1 at two concrete mime types, one in the table and one not. -/
theorem classify_acceptance_table_witness :
    List.lookup "application/msword" accepted_types =
      some (mkRat 85 100, "DOC document - Accepted") ∧
    classify "application/msword" = ("accepted", mkRat 85 100, "DOC document - Accepted") ∧
    List.lookup "application/octet-stream" accepted_types = none ∧
    classify "application/octet-stream" =
      ("rejected", mkRat 3 10,
       "File type \x27application/octet-stream\x27 not in accepted list - Rejected") :=
  ⟨by decide,
   (classify_acceptance_table "application/msword").2.1 (mkRat 85 100) "DOC document - Accepted"
     (by decide),
   by decide,
   (classify_acceptance_table "application/octet-stream").2.2.1 (by decide)⟩

/-- C3 counterexample: the claim asserts a non-empty mime and extension for
every input, but the data-URL branch can return an empty mime
(`"data:,"`) or an empty extension (`"data:image/;base64,AAAA"`). -/
theorem detect_nonempty_counterexample :
    (detect_file_type "data:,").1 = "" ∧
    (detect_file_type "data:image/;base64,AAAA").2 = "" := by
  constructor <;> decide

/-- C3 amended: `detect_file_type` terminates and returns for every input (it
is a total function); an input whose lenient decode fails yields the
generic-binary result; and both the mime and the extension are non-empty for
every input that does not carry a `data:` prefix (the data-URL branch can
return an empty mime or extension, as the counterexample shows). -/
theorem detect_total_nonempty (s : String) :
    (pyB64DecodeLenient s = none →
      detect_file_type s = ("application/octet-stream", "bin")) ∧
    (pyStartsWith s "data:" = false →
      (detect_file_type s).1 ≠ "" ∧ (detect_file_type s).2 ≠ "") := by
  constructor
  · intro h
    unfold detect_file_type detectFileTypeRun
    rw [h]
  · intro hpre
    cases hdec : pyB64DecodeLenient s with
    | none =>
      unfold detect_file_type detectFileTypeRun
      rw [hdec]
      dsimp only
      exact ⟨by decide, by decide⟩
    | some d =>
      rw [detect_eq_detectRest s d hdec hpre]
      unfold detectRest
      cases h : sigLookup file_signatures d with
      | some me =>
        have hmem := sigLookup_mem _ _ _ h
        rw [file_signatures_eval] at hmem
        rcases me with ⟨m, e⟩
        simp only [List.map_cons, List.map_nil, List.mem_cons, List.not_mem_nil,
          or_false, Prod.mk.injEq] at hmem
        dsimp only
        rcases hmem with ⟨h1, h2⟩|⟨h1, h2⟩|⟨h1, h2⟩|⟨h1, h2⟩|⟨h1, h2⟩|⟨h1, h2⟩|⟨h1, h2⟩|⟨h1, h2⟩ <;>
          subst h1 <;> subst h2 <;> exact ⟨by decide, by decide⟩
      | none =>
        dsimp only
        split_ifs <;> exact ⟨by decide, by decide⟩

/-- Witness for C3 (amended) at a failing decode and at a plain input. -/
theorem detect_total_nonempty_witness :
    pyB64DecodeLenient "A" = none ∧
    detect_file_type "A" = ("application/octet-stream", "bin") ∧
    pyStartsWith "AAAA" "data:" = false ∧
    ((detect_file_type "AAAA").1 ≠ "" ∧ (detect_file_type "AAAA").2 ≠ "") :=
  ⟨rfl, (detect_total_nonempty "A").1 rfl, rfl, (detect_total_nonempty "AAAA").2 rfl⟩

/-- C4: any decoded buffer starting with one of the ZIP signatures
`PK\x03\x04`, `PK\x05\x06`, `PK\x07\x08` (for an input without a data-URL
prefix) is detected as the wordprocessing type, never as `application/zip`:
the docx entries of the dict literal overwrite the zip entries, which use the
same byte-string keys. -/
theorem zip_signature_yields_docx (s : String) (d t : List Nat)
    (hdec : pyB64DecodeLenient s = some d)
    (hpre : pyStartsWith s "data:" = false)
    (hd : d = [0x50, 0x4B, 0x03, 0x04] ++ t ∨ d = [0x50, 0x4B, 0x05, 0x06] ++ t ∨
          d = [0x50, 0x4B, 0x07, 0x08] ++ t) :
    detect_file_type s =
      ("application/vnd.openxmlformats-officedocument.wordprocessingml.document", "docx") ∧
    detect_file_type s ≠ ("application/zip", "zip") := by
  have hsig : sigLookup file_signatures d =
      some ("application/vnd.openxmlformats-officedocument.wordprocessingml.document",
        "docx") := by
    rw [file_signatures_eval]
    rcases hd with h|h|h <;> subst h <;>
      simp [sigLookup, List.isPrefixOf, List.cons_append, List.nil_append]
  rw [detect_eq_detectRest s d hdec hpre]
  unfold detectRest
  rw [hsig]
  dsimp only
  exact ⟨rfl, by decide⟩

/-- Witness for C4 at a four-byte ZIP-signature buffer. -/
theorem zip_signature_yields_docx_witness :
    detect_file_type "UEsDBA==" =
      ("application/vnd.openxmlformats-officedocument.wordprocessingml.document", "docx") ∧
    detect_file_type "UEsDBA==" ≠ ("application/zip", "zip") :=
  zip_signature_yields_docx "UEsDBA==" [0x50, 0x4B, 0x03, 0x04] [] (by decide) (by decide)
    (Or.inl (by decide))

/-- C6: a decoded buffer starting with `%PDF` (for an input without a data-URL
prefix) is always detected as `application/pdf`, whatever the later bytes
contain: the signature table is consulted before the text heuristic. -/
theorem pdf_signature_precedence (s : String) (t : List Nat)
    (hdec : pyB64DecodeLenient s = some ([0x25, 0x50, 0x44, 0x46] ++ t))
    (hpre : pyStartsWith s "data:" = false) :
    detect_file_type s = ("application/pdf", "pdf") := by
  have hsig : sigLookup file_signatures ([0x25, 0x50, 0x44, 0x46] ++ t) =
      some ("application/pdf", "pdf") := by
    rw [file_signatures_eval]
    simp [sigLookup, List.isPrefixOf, List.cons_append, List.nil_append]
  rw [detect_eq_detectRest s _ hdec hpre]
  unfold detectRest
  rw [hsig]

/-- Witness for C6 at the bytes `%PDF{`, whose tail is JSON-looking. -/
theorem pdf_signature_precedence_witness :
    detect_file_type "JVBERns=" = ("application/pdf", "pdf") :=
  pdf_signature_precedence "JVBERns=" [0x7B] (by decide) (by decide)

/-- C5: for an input without a data-URL prefix whose decoded bytes match no
magic signature and hold at least 4 bytes, the text prefixes of the permissive
UTF-8 decode of the first 100 bytes are tested in order, first match winning:
xml, json, html, php, plain-text script; with no match, or with fewer than 4
bytes, the result is the generic binary pair. -/
theorem text_heuristic_order (s : String) (d : List Nat)
    (hdec : pyB64DecodeLenient s = some d)
    (hpre : pyStartsWith s "data:" = false)
    (hsig : ∀ p ∈ file_signatures, p.1.isPrefixOf d = false) :
    (4 ≤ d.length →
      (pyStartsWithL (textStart d) "<?xml" = true →
        detect_file_type s = ("application/xml", "xml")) ∧
      (pyStartsWithL (textStart d) "<?xml" = false →
        (pyStartsWithL (textStart d) "\x7b" = true ∨ pyStartsWithL (textStart d) "[" = true) →
        detect_file_type s = ("application/json", "json")) ∧
      (pyStartsWithL (textStart d) "<?xml" = false →
        pyStartsWithL (textStart d) "\x7b" = false →
        pyStartsWithL (textStart d) "[" = false →
        (pyStartsWithL (textStart d) "<html" = true ∨
          pyStartsWithL (textStart d) "<!DOCTYPE" = true) →
        detect_file_type s = ("text/html", "html")) ∧
      (pyStartsWithL (textStart d) "<?xml" = false →
        pyStartsWithL (textStart d) "\x7b" = false →
        pyStartsWithL (textStart d) "[" = false →
        pyStartsWithL (textStart d) "<html" = false →
        pyStartsWithL (textStart d) "<!DOCTYPE" = false →
        pyStartsWithL (textStart d) "<?php" = true →
        detect_file_type s = ("application/x-httpd-php", "php")) ∧
      (pyStartsWithL (textStart d) "<?xml" = false →
        pyStartsWithL (textStart d) "\x7b" = false →
        pyStartsWithL (textStart d) "[" = false →
        pyStartsWithL (textStart d) "<html" = false →
        pyStartsWithL (textStart d) "<!DOCTYPE" = false →
        pyStartsWithL (textStart d) "<?php" = false →
        pyStartsWithL (textStart d) "#!/" = true →
        detect_file_type s = ("text/plain", "txt")) ∧
      (pyStartsWithL (textStart d) "<?xml" = false →
        pyStartsWithL (textStart d) "\x7b" = false →
        pyStartsWithL (textStart d) "[" = false →
        pyStartsWithL (textStart d) "<html" = false →
        pyStartsWithL (textStart d) "<!DOCTYPE" = false →
        pyStartsWithL (textStart d) "<?php" = false →
        pyStartsWithL (textStart d) "#!/" = false →
        detect_file_type s = ("application/octet-stream", "bin"))) ∧
    (d.length < 4 → detect_file_type s = ("application/octet-stream", "bin")) := by
  have hnone := sigLookup_none _ _ hsig
  rw [detect_eq_detectRest s d hdec hpre]
  unfold detectRest
  rw [hnone]
  dsimp only
  constructor
  · intro h4
    rw [if_pos h4]
    refine ⟨?_, ?_, ?_, ?_, ?_, ?_⟩
    · intro h1
      simp only [h1, if_true]
    · intro h1 h2
      rcases h2 with h2 | h2 <;>
        simp only [h1, h2, Bool.true_or, Bool.or_true, Bool.false_eq_true, if_false, if_true]
    · intro h1 h2 h3 h4
      rcases h4 with h4 | h4 <;>
        simp only [h1, h2, h3, h4, Bool.true_or, Bool.or_true, Bool.or_false,
          Bool.false_or, Bool.false_eq_true, if_false, if_true]
    · intro h1 h2 h3 h4 h5 h6
      simp only [h1, h2, h3, h4, h5, h6, Bool.or_false, Bool.false_or,
        Bool.false_eq_true, if_false, if_true]
    · intro h1 h2 h3 h4 h5 h6 h7
      simp only [h1, h2, h3, h4, h5, h6, h7, Bool.or_false, Bool.false_or,
        Bool.false_eq_true, if_false, if_true]
    · intro h1 h2 h3 h4 h5 h6 h7
      simp only [h1, h2, h3, h4, h5, h6, h7, Bool.or_false, Bool.false_or,
        Bool.false_eq_true, if_false]
  · intro hlt
    rw [if_neg (by omega)]

/-- Witness for C5 at a four-byte JSON-looking buffer. -/
theorem text_heuristic_order_witness :
    detect_file_type "e0FBQQ==" = ("application/json", "json") :=
  ((text_heuristic_order "e0FBQQ==" [0x7B, 0x41, 0x41, 0x41] (by decide) (by decide)
      (by decide)).1 (by decide)).2.1 (by decide) (Or.inl (by decide))

/-- C10 counterexample: a buffer of one hundred invalid-UTF-8 bytes followed
by a brace satisfies every hypothesis of the claim (at least 4 bytes, no
magic signature, invalid UTF-8 leading bytes, then a brace as first valid
byte), yet it is detected as generic binary, not JSON: the brace lies outside
the 100-byte window the text heuristic examines. -/
theorem json_after_invalid_utf8_counterexample :
    pyB64DecodeLenient
        "gICAgICAgICAgICAgICAgICAgICAgICAgICAgICAgICAgICAgICAgICAgICAgICAgICAgICAgICAgICAgICAgICAgICAgICAgICAgICAgICAgICAgICAgICAgICAgICAgICAgHs=" =
      some (List.replicate 100 0x80 ++ [0x7B]) ∧
    (∀ p ∈ file_signatures,
      p.1.isPrefixOf (List.replicate 100 0x80 ++ [0x7B]) = false) ∧
    4 ≤ (List.replicate 100 0x80 ++ [0x7B]).length ∧
    utf8Ignore (List.replicate 100 0x80) = [] ∧
    detect_file_type
        "gICAgICAgICAgICAgICAgICAgICAgICAgICAgICAgICAgICAgICAgICAgICAgICAgICAgICAgICAgICAgICAgICAgICAgICAgICAgICAgICAgICAgICAgICAgICAgICAgICAgHs=" =
      ("application/octet-stream", "bin") ∧
    detect_file_type
        "gICAgICAgICAgICAgICAgICAgICAgICAgICAgICAgICAgICAgICAgICAgICAgICAgICAgICAgICAgICAgICAgICAgICAgICAgICAgICAgICAgICAgICAgICAgICAgICAgICAgHs=" ≠
      ("application/json", "json") := by
  refine ⟨by decide, by decide, by decide, by decide, by decide, by decide⟩

/-- C10 amended: the text heuristic decodes the first 100 bytes with UTF-8
errors ignored, so invalid leading bytes are silently dropped: a buffer of at
least 4 bytes with no magic signature whose leading bytes are invalid UTF-8
(they decode to nothing) followed by a brace is detected as JSON — provided
the brace lies inside the 100-byte window, i.e. fewer than 100 bytes precede
it. -/
theorem json_after_invalid_utf8 (s : String) (bad rest : List Nat)
    (hdec : pyB64DecodeLenient s = some (bad ++ 0x7B :: rest))
    (hpre : pyStartsWith s "data:" = false)
    (hsig : ∀ p ∈ file_signatures, p.1.isPrefixOf (bad ++ 0x7B :: rest) = false)
    (hbad : utf8Ignore bad = [])
    (hblen : bad.length < 100)
    (hlen : 4 ≤ (bad ++ 0x7B :: rest).length) :
    detect_file_type s = ("application/json", "json") := by
  have htext : ∃ l : List Char, textStart (bad ++ 0x7B :: rest) = '\x7b' :: l := by
    obtain ⟨k, hk⟩ : ∃ k, 100 - bad.length = k + 1 := ⟨99 - bad.length, by omega⟩
    have h1 : (bad ++ 0x7B :: rest).take 100 = bad ++ 0x7B :: rest.take k := by
      rw [List.take_append_eq_append_take, List.take_of_length_le (by omega), hk,
        List.take_succ_cons]
    refine ⟨utf8Ignore (rest.take k), ?_⟩
    rw [textStart, h1,
      utf8Ignore_append_ascii (show (0x7B : Nat) < 0x80 by omega) bad.length bad (rest.take k) le_rfl,
      hbad, utf8Ignore_cons]
    rfl
  obtain ⟨l, hl⟩ := htext
  have hx1 : pyStartsWithL (textStart (bad ++ 0x7B :: rest)) "<?xml" = false := by
    rw [hl]
    show List.isPrefixOf "<?xml".data ('\x7b' :: l) = false
    rw [show "<?xml".data = ['<', '?', 'x', 'm', 'l'] from rfl]
    simp [List.isPrefixOf]
  have hx2 : pyStartsWithL (textStart (bad ++ 0x7B :: rest)) "\x7b" = true := by
    rw [hl]
    show List.isPrefixOf "\x7b".data ('\x7b' :: l) = true
    rw [show "\x7b".data = ['\x7b'] from rfl]
    simp [List.isPrefixOf]
  have hnone := sigLookup_none _ _ hsig
  rw [detect_eq_detectRest s _ hdec hpre]
  unfold detectRest
  rw [hnone]
  dsimp only
  rw [if_pos hlen]
  simp only [hx1, hx2, Bool.true_or, Bool.false_eq_true, if_false, if_true]

/-- Witness for C10 (amended): one invalid byte, then a brace. -/
theorem json_after_invalid_utf8_witness :
    detect_file_type "gHtBQQ==" = ("application/json", "json") :=
  json_after_invalid_utf8 "gHtBQQ==" [0x80] [0x41, 0x41] (by decide) (by decide)
    (by decide) (by decide) (by decide) (by decide)

/-- C2 evaluation: on the canonical data-URL input, `detect_file_type` returns
the generic-binary pair, not the mime parsed from the prefix — the lenient
decode of the full input string (prefix included) at app.py line 42 raises
`Incorrect padding` (30 alphabet characters with one pad), so control reaches
the handler at line 104 before the data-URL branch at line 47 ever runs, even
though the prefix itself parses to `("image/png", "png")`. -/
theorem dataurl_example_detects_binary :
    detect_file_type "data:image/png;base64,iVBORw0KGgo=" =
      ("application/octet-stream", "bin") ∧
    parseDataUrl "data:image/png;base64,iVBORw0KGgo=" = some ("image/png", "png") ∧
    pyB64DecodeLenient "data:image/png;base64,iVBORw0KGgo=" = none := by
  refine ⟨by decide, by decide, by decide⟩

/-- C7: when the stripped payload fails strict base64 validation, or decodes
to zero bytes, `process_document` answers a 400 client error and performs no
calls at all: the type detection, the acceptance lookup and the persistence
step are never invoked, and no verdict is produced. -/
theorem invalid_or_empty_rejected_before_classify
    (save : List Nat → PyId → PyId → String → String) (req : DocumentRequest)
    (b64 : String) (hstrip : stripDataUrl req.base64_data = Except.ok b64) :
    (pyB64DecodeStrict b64 = none →
      processDocument save req = (Except.error HErr.invalidBase64, []) ∧
      statusCode HErr.invalidBase64 = 400) ∧
    (pyB64DecodeStrict b64 = some [] →
      processDocument save req = (Except.error HErr.emptyFile, []) ∧
      statusCode HErr.emptyFile = 400) := by
  constructor
  · intro h
    unfold processDocument
    rw [hstrip]
    dsimp only
    rw [h]
    exact ⟨rfl, rfl⟩
  · intro h
    unfold processDocument
    rw [hstrip]
    dsimp only
    rw [h]
    exact ⟨rfl, rfl⟩

/-- Witness for C7 at a non-base64 payload and at an empty payload. -/
theorem invalid_or_empty_rejected_before_classify_witness :
    stripDataUrl "!!!" = Except.ok "!!!" ∧ pyB64DecodeStrict "!!!" = none ∧
    (processDocument (fun _ _ _ _ => "p") ⟨Sum.inl "r1", Sum.inl "d1", "!!!"⟩ =
        (Except.error HErr.invalidBase64, []) ∧
      statusCode HErr.invalidBase64 = 400) ∧
    stripDataUrl "" = Except.ok "" ∧ pyB64DecodeStrict "" = some [] ∧
    (processDocument (fun _ _ _ _ => "p") ⟨Sum.inl "r1", Sum.inl "d1", ""⟩ =
        (Except.error HErr.emptyFile, []) ∧
      statusCode HErr.emptyFile = 400) :=
  ⟨rfl, rfl,
   (invalid_or_empty_rejected_before_classify (fun _ _ _ _ => "p")
      ⟨Sum.inl "r1", Sum.inl "d1", "!!!"⟩ "!!!" rfl).1 rfl,
   rfl, rfl,
   (invalid_or_empty_rejected_before_classify (fun _ _ _ _ => "p")
      ⟨Sum.inl "r1", Sum.inl "d1", ""⟩ "" rfl).2 rfl⟩

/-- C8: on every successfully classified request, `process_document` performs
the detection, then the classification, then exactly one persistence call
`save(decoded, record_id, document_id, extension)` — also when the verdict is
rejected — and the returned verdict is exactly the classification of the
detected mime type, independent of the persistence function and of the
storage location it returns. -/
theorem classify_then_save_once
    (save save2 : List Nat → PyId → PyId → String → String) (req : DocumentRequest)
    (b64 : String) (d : List Nat)
    (hstrip : stripDataUrl req.base64_data = Except.ok b64)
    (hdec : pyB64DecodeStrict b64 = some d) (hne : d ≠ []) :
    processDocument save req =
      (Except.ok ⟨req.record_id, req.document_id, (classify (detect_file_type b64).1).1,
          (classify (detect_file_type b64).1).2.1, (classify (detect_file_type b64).1).2.2⟩,
       [CallEv.detectEv (detect_file_type b64).1 (detect_file_type b64).2,
        CallEv.classifyEv (classify (detect_file_type b64).1).1
          (classify (detect_file_type b64).1).2.1 (classify (detect_file_type b64).1).2.2,
        CallEv.saveEv d req.record_id req.document_id (detect_file_type b64).2
          (save d req.record_id req.document_id (detect_file_type b64).2)]) ∧
    (processDocument save req).2.countP
      (fun ev => match ev with | CallEv.saveEv _ _ _ _ _ => true | _ => false) = 1 ∧
    (processDocument save req).1 = (processDocument save2 req).1 := by
  have hlen : ¬d.length = 0 := by
    simpa [List.length_eq_zero] using hne
  have main : ∀ sv : List Nat → PyId → PyId → String → String,
      processDocument sv req =
        (Except.ok ⟨req.record_id, req.document_id, (classify (detect_file_type b64).1).1,
            (classify (detect_file_type b64).1).2.1, (classify (detect_file_type b64).1).2.2⟩,
         [CallEv.detectEv (detect_file_type b64).1 (detect_file_type b64).2,
          CallEv.classifyEv (classify (detect_file_type b64).1).1
            (classify (detect_file_type b64).1).2.1 (classify (detect_file_type b64).1).2.2,
          CallEv.saveEv d req.record_id req.document_id (detect_file_type b64).2
            (sv d req.record_id req.document_id (detect_file_type b64).2)]) := by
    intro sv
    unfold processDocument
    rw [hstrip]
    dsimp only
    rw [hdec]
    dsimp only
    rw [if_neg hlen]
  refine ⟨main save, ?_, ?_⟩
  · rw [main save]
    rfl
  · rw [main save, main save2]

/-- Witness for C8 at a PDF request and two distinct persistence functions. -/
theorem classify_then_save_once_witness :
    stripDataUrl "JVBERg==" = Except.ok "JVBERg==" ∧
    pyB64DecodeStrict "JVBERg==" = some [0x25, 0x50, 0x44, 0x46] ∧
    ([0x25, 0x50, 0x44, 0x46] : List Nat) ≠ [] ∧
    ((processDocument (fun _ _ _ _ => "path1")
          ⟨Sum.inl "r1", Sum.inr 7, "JVBERg=="⟩).2.countP
        (fun ev => match ev with | CallEv.saveEv _ _ _ _ _ => true | _ => false) = 1 ∧
      (processDocument (fun _ _ _ _ => "path1") ⟨Sum.inl "r1", Sum.inr 7, "JVBERg=="⟩).1 =
        (processDocument (fun _ _ _ _ => "path2")
          ⟨Sum.inl "r1", Sum.inr 7, "JVBERg=="⟩).1) :=
  ⟨rfl, rfl, by decide,
   (classify_then_save_once (fun _ _ _ _ => "path1") (fun _ _ _ _ => "path2")
      ⟨Sum.inl "r1", Sum.inr 7, "JVBERg=="⟩ "JVBERg==" [0x25, 0x50, 0x44, 0x46]
      rfl rfl (by decide)).2⟩

/-- C9: `detect_file_type` and the classification block are pure and
deterministic: their returned values depend only on their argument, not on
the ambient output state the print statements append to — two runs on the
same input from any two output states return the same value, which is the
value of the pure projection. -/
theorem detect_classify_pure (s m : String) (out1 out2 : List PrintEv) :
    (detectFileTypeRun s out1).1 = (detectFileTypeRun s out2).1 ∧
    (detectFileTypeRun s out1).1 = detect_file_type s ∧
    (classifyRun m out1).1 = (classifyRun m out2).1 ∧
    (classifyRun m out1).1 = classify m :=
  ⟨detectFileTypeRun_fst s out1 out2, detectFileTypeRun_fst s out1 [],
   classifyRun_fst m out1 out2, classifyRun_fst m out1 []⟩
